import Mathlib

/-!
Verification of the object-storage collection/tagging client
(`capai_python_common/utils/s3_utils.py`, class `s3Client`).

The client methods are shallowly embedded as pure Lean functions.  Each
method is parametrised by the responses the backing store would give to
the network calls the method issues (a `ClientError` is carried as its
message string), and returns, besides the Python-level result, a trace of
the store calls the method issued (tag writes, bulk deletes, object
transfers, telemetry reports), so that statements about "issues no write"
or "reported to telemetry" are statements about that trace.
-/

namespace S3Utils

/-- A single S3 object tag: a dictionary `{'Key': ..., 'Value': ...}`. -/
structure Tag where
  Key : String
  Value : String
deriving Repr, DecidableEq

/-- The keys of a tag list, in order. -/
def tagKeys (ts : List Tag) : List String := ts.map (·.Key)

/-- The Python exceptions the client can raise: a `botocore` `ClientError`
(carried with its message), Python's `ValueError` and `FileNotFoundError`. -/
inductive PyErr where
  | clientError (msg : String)
  | valueError (msg : String)
  | fileNotFoundError (msg : String)
deriving Repr, DecidableEq

/-! ## `append_tags` (s3_utils.py lines 398-469) -/

/-- The `if exclude_keys:` filtering step of `append_tags`: Python's
truthiness makes both `None` and `[]` skip the filter. -/
def filterExcluded (ts : List Tag) (exclude_keys : Option (List String)) : List Tag :=
  match exclude_keys with
  | none => ts
  | some ex => if ex.isEmpty then ts else ts.filter (fun t => ¬ ex.contains t.Key)

/-- The tag list `updated_tags` computed on the normal path of
`append_tags`: drop excluded keys from the existing tags, drop existing
tags whose key also appears in `new_tags`, then concatenate. -/
def mergedTags (existing_tags new_tags : List Tag) (exclude_keys : Option (List String)) :
    List Tag :=
  let existing1 := filterExcluded existing_tags exclude_keys
  let new_tag_keys := tagKeys new_tags
  let existing2 := existing1.filter (fun t => ¬ new_tag_keys.contains t.Key)
  existing2 ++ new_tags

deriving instance DecidableEq for Except

/-- Outcome of an `append_tags` call: the `put_object_tagging` writes it
issued (each one the `TagSet` it sent), plus the Python result. -/
structure AppendTagsOutcome where
  writes : List (List Tag)
  result : Except PyErr Bool
deriving Repr, DecidableEq

/-- The `ValueError` message of `append_tags`. -/
def tagLimitMsg (n : Nat) (key : String) : String :=
  "Total number of tags (" ++ toString n ++
    ") would exceed AWS limit of 10 tags per object for " ++ key

/-- `s3Client.append_tags(key, new_tags, exclude_keys)`.
`existingFetch` is the store's answer to the inner `get_object_tagging`
call (`.error` = a `ClientError`, which the code tolerates by falling back
to `new_tags` only); `putResp` is the store's answer to the final
`put_object_tagging` call. -/
def append_tags (key : String) (existingFetch : Except String (List Tag))
    (new_tags : List Tag) (exclude_keys : Option (List String))
    (putResp : Except String Unit) : AppendTagsOutcome :=
  let proceed : List Tag → AppendTagsOutcome := fun updated_tags =>
    match putResp with
    | .ok _ => { writes := [updated_tags], result := .ok true }
    | .error m => { writes := [updated_tags], result := .error (.clientError m) }
  match existingFetch with
  | .ok existing_tags =>
      let updated_tags := mergedTags existing_tags new_tags exclude_keys
      if updated_tags.length > 10 then
        { writes := [], result := .error (.valueError (tagLimitMsg updated_tags.length key)) }
      else
        proceed updated_tags
  | .error _ =>
      let updated_tags := new_tags
      if updated_tags.length > 10 then
        { writes := [], result := .error (.valueError (tagLimitMsg updated_tags.length key)) }
      else
        proceed updated_tags

/-! ## `exists_in_s3` (lines 29-37) -/

/-- The store's answer to a `head_object` call: either the head metadata
(abstracted to a string), or a `ClientError` with its error code and
message. -/
inductive HeadResult where
  | ok (meta : String)
  | err (code : String) (msg : String)
deriving Repr, DecidableEq

/-- `s3Client.exists_in_s3(key)`: `.ok none` models returning `False`,
`.ok (some meta)` models returning the (truthy) head-object response. -/
def exists_in_s3 (headResp : HeadResult) : Except PyErr (Option String) :=
  match headResp with
  | .ok meta => .ok (some meta)
  | .err code msg => if code = "404" then .ok none else .error (.clientError msg)

/-! ## `download` (lines 94-128) -/

/-- Python's `s.startswith(p)`, and equally the S3 `Prefix=` match: the
first `|p|` characters of `s` are exactly `p`. -/
def strStartsWith (s p : String) : Bool := s.data.take p.data.length == p.data

/-- Python's `s.endswith(p)`: the last `|p|` characters of `s` are
exactly `p`. -/
def strEndsWith (s p : String) : Bool :=
  s.data.drop (s.data.length - p.data.length) == p.data

/-- The filename the client derives from a key:
`key.split("/")[-1] if "/" in key else key` — the suffix after the last
`/` when the key contains one. -/
def filenameOfKey (key : String) : String :=
  if key.data.contains '/' then
    ⟨(key.data.reverse.takeWhile (fun c => c != '/')).reverse⟩
  else key

/-- `os.path.join(dir, fn)` for a POSIX path with two components. -/
def osPathJoin (dir fn : String) : String :=
  if strStartsWith fn "/" then fn
  else if dir = "" then fn
  else if strEndsWith dir "/" then dir ++ fn
  else dir ++ "/" ++ fn

/-- Outcome of a `download` call: how many `download_file` (get-object)
transfers were issued, which exceptions were reported to the telemetry
collaborator (`capture_exception`), and the Python result. -/
structure DownloadOutcome where
  getObjectCalls : Nat
  telemetryReports : List String
  result : Except PyErr String
deriving Repr, DecidableEq

/-- `s3Client.download(key, download_path)`.  `headResp` is the store's
answer to the `head_object` issued by the inner `exists_in_s3` call;
`transfer` the answer to `download_file` (`.error` = a `ClientError`,
which the code telemetry-reports and re-raises). -/
def download (headResp : HeadResult) (key : String) (download_path : String)
    (transfer : Except String Unit) : DownloadOutcome :=
  match exists_in_s3 headResp with
  | .error e => { getObjectCalls := 0, telemetryReports := [], result := .error e }
  | .ok none =>
      { getObjectCalls := 0, telemetryReports := [],
        result := .error (.fileNotFoundError
          ("S3 object with key " ++ key ++ " not found in bucket")) }
  | .ok (some _) =>
      let filename := filenameOfKey key
      let local_file_path := osPathJoin download_path filename
      match transfer with
      | .ok _ =>
          { getObjectCalls := 1, telemetryReports := [], result := .ok local_file_path }
      | .error m =>
          { getObjectCalls := 1, telemetryReports := [m],
            result := .error (.clientError m) }

/-! ## `create_collection` (lines 249-284) -/

/-- Python's `str.lower()` (for the ASCII collection names at issue):
lower-cases the string character by character. -/
def pyLower (s : String) : String := ⟨s.data.map Char.toLower⟩

/-- Outcome of a `create_collection` call: the `put_object` writes issued
(key and body of each) and the Python result. -/
structure CreateCollectionOutcome where
  puts : List (String × String)
  result : Except PyErr String
deriving Repr, DecidableEq

/-- `s3Client.create_collection(orgid, collection)`.  `ts` stands for
`arrow.utcnow().isoformat()`; `putResp` is the store's answer to the
`put_object` call. -/
def create_collection (orgid collection : String) (ts : String)
    (putResp : Except String Unit) : CreateCollectionOutcome :=
  let collection_pfx := orgid ++ "/" ++ pyLower collection
  let placeholder_key := collection_pfx ++ "/.collection_info"
  let placeholder_content :=
    "Collection: " ++ collection ++ "\nCreated: " ++ ts ++ "\nOrganization: " ++ orgid
  match putResp with
  | .ok _ =>
      { puts := [(placeholder_key, placeholder_content)], result := .ok collection_pfx }
  | .error m =>
      { puts := [(placeholder_key, placeholder_content)],
        result := .error (.clientError m) }

/-! ## `list_objects` (lines 160-229) -/

/-- The part of a listed object's summary dictionary the claims are
about: its key and the derived `filename` field. -/
structure ObjectSummary where
  key : String
  filename : String
deriving Repr, DecidableEq

/-- `s3Client.list_objects(prefix)`, restricted to the key/filename
fields.  `storeKeys` is the set of keys the store holds (so the
`list_objects_v2` response's `Contents` are those starting with the
requested string); objects whose derived filename is exactly
`.collection_info` are skipped by the `continue`. -/
def list_objects (storeKeys : List String) (pfx : String) : List ObjectSummary :=
  (storeKeys.filter (fun k => strStartsWith k pfx)).filterMap (fun k =>
    if filenameOfKey k = ".collection_info" then none
    else some { key := k, filename := filenameOfKey k })

/-! ## `delete_object` (lines 231-247) and `get_tags` (lines 359-374) -/

/-- Observable effects of one wrapper call: store calls issued,
`logger.error` lines emitted, exceptions reported to the telemetry
collaborator (`capture_exception`). -/
structure OpTrace where
  storeCalls : Nat
  logErrorCount : Nat
  telemetryReports : List String
deriving Repr, DecidableEq

/-- `s3Client.delete_object(key)`: one store call; on `ClientError` it
logs the error and re-raises the same exception. -/
def delete_object (resp : Except String Unit) : OpTrace × Except PyErr Bool :=
  match resp with
  | .ok _ => ({ storeCalls := 1, logErrorCount := 0, telemetryReports := [] }, .ok true)
  | .error m =>
      ({ storeCalls := 1, logErrorCount := 1, telemetryReports := [] },
        .error (.clientError m))

/-- Python dict insertion `d[k] = v`: replace in place if the key is
present, else append. -/
def pyDictInsert (d : List (String × String)) (k v : String) : List (String × String) :=
  if d.any (fun p => p.1 = k) then d.map (fun p => if p.1 = k then (k, v) else p)
  else d ++ [(k, v)]

/-- The dict comprehension
`{tag["Key"]: tag["Value"] for tag in response.get("TagSet", [])}`. -/
def pyDictOfTagSet (ts : List Tag) : List (String × String) :=
  ts.foldl (fun d t => pyDictInsert d t.Key t.Value) []

/-- `s3Client.get_tags(key)`: flattens the store's `TagSet` to a dict; on
`ClientError` it logs the error and re-raises the same exception. -/
def get_tags (resp : Except String (List Tag)) :
    OpTrace × Except PyErr (List (String × String)) :=
  match resp with
  | .ok ts =>
      ({ storeCalls := 1, logErrorCount := 0, telemetryReports := [] },
        .ok (pyDictOfTagSet ts))
  | .error m =>
      ({ storeCalls := 1, logErrorCount := 1, telemetryReports := [] },
        .error (.clientError m))

/-! ## `put_tags` (lines 376-396) and the tag store -/

/-- The backing store's per-key tag state. -/
structure TagStore where
  tags : String → List Tag

/-- The store-side effect of `put_object_tagging(Bucket, Key, {"TagSet": tags})`. -/
def put_object_tagging (st : TagStore) (key : String) (ts : List Tag) : TagStore :=
  { tags := fun k => if k = key then ts else st.tags k }

/-- `s3Client.put_tags(key, tags)` on its success path: replaces the
object's whole tag set and returns `True`. -/
def put_tags (st : TagStore) (key : String) (ts : List Tag) :
    TagStore × Except PyErr Bool :=
  (put_object_tagging st key ts, .ok true)

/-! ## `delete_collection` (lines 286-327) -/

/-- The summary dictionary `delete_collection` returns. -/
structure DeleteCollectionResult where
  pfx : String
  deleted_objects : List String
  total_deleted : Nat
deriving Repr, DecidableEq

/-- Outcome of a `delete_collection` call: the `delete_objects` bulk
calls issued (each the key list it sent), plus the returned summary. -/
structure DeleteCollectionOutcome where
  bulkDeleteCalls : List (List String)
  result : DeleteCollectionResult
deriving Repr, DecidableEq

/-- `s3Client.delete_collection(s3_prefix)` on its success path.
`storeKeys` is the set of keys the store holds (`list_objects_v2` omits
`Contents` when nothing matches); `deletedResp` is the `Deleted` key list
of the store's `delete_objects` response, which may be shorter than the
request. -/
def delete_collection (storeKeys : List String) (pfx : String)
    (deletedResp : List String) : DeleteCollectionOutcome :=
  let contents := storeKeys.filter (fun k => strStartsWith k pfx)
  if contents.isEmpty then
    { bulkDeleteCalls := [],
      result := { pfx := pfx, deleted_objects := [], total_deleted := 0 } }
  else
    { bulkDeleteCalls := [contents],
      result := { pfx := pfx, deleted_objects := deletedResp,
                  total_deleted := deletedResp.length } }

/-- Eleven tags with pairwise distinct keys, for exercising the tag
limit. -/
def elevenTags : List Tag :=
  [⟨"a", ""⟩, ⟨"b", ""⟩, ⟨"c", ""⟩, ⟨"d", ""⟩, ⟨"e", ""⟩, ⟨"f", ""⟩,
   ⟨"g", ""⟩, ⟨"h", ""⟩, ⟨"i", ""⟩, ⟨"j", ""⟩, ⟨"k", ""⟩]

/-! ## Theorems -/

/-- The merged tag list, written without the intermediate `let`s. -/
theorem mergedTags_eq (T1 T2 : List Tag) (ex : Option (List String)) :
    mergedTags T1 T2 ex =
      ((filterExcluded T1 ex).filter
        (fun t => ¬ (tagKeys T2).contains t.Key)) ++ T2 := rfl

/-- Exclusion filtering only drops elements. -/
theorem filterExcluded_sublist (ts : List Tag) (ex : Option (List String)) :
    List.Sublist (filterExcluded ts ex) ts := by
  cases ex with
  | none => exact List.Sublist.refl ts
  | some l =>
    show List.Sublist
      (if l.isEmpty = true then ts else ts.filter (fun t => ¬ l.contains t.Key)) ts
    by_cases h : l.isEmpty = true
    · rw [if_pos h]
    · rw [if_neg h]
      exact List.filter_sublist ts

/-- A duplicate-free list contained in `l'` is no longer than `l'`
deduplicated. -/
theorem length_le_dedup_length_of_nodup {l l' : List String} (h : l.Nodup)
    (hs : ∀ a ∈ l, a ∈ l') : l.length ≤ l'.dedup.length := by
  have h1 : l.toFinset.card = l.length := List.toFinset_card_of_nodup h
  have h2 : l'.toFinset.card = l'.dedup.length := List.card_toFinset l'
  have h3 : l.toFinset ⊆ l'.toFinset := by
    intro a ha
    exact List.mem_toFinset.mpr (hs a (List.mem_toFinset.mp ha))
  calc l.length = l.toFinset.card := h1.symm
    _ ≤ l'.toFinset.card := Finset.card_le_card h3
    _ = l'.dedup.length := h2

/-- The merge never produces a duplicate key when both inputs are
duplicate-free. -/
theorem mergedTags_keys_nodup (T1 T2 : List Tag) (ex : Option (List String))
    (h1 : (tagKeys T1).Nodup) (h2 : (tagKeys T2).Nodup) :
    (tagKeys (mergedTags T1 T2 ex)).Nodup := by
  rw [mergedTags_eq]
  simp only [tagKeys, List.map_append]
  rw [List.nodup_append]
  refine ⟨?_, h2, ?_⟩
  · exact h1.sublist
      (((List.filter_sublist _).trans (filterExcluded_sublist T1 ex)).map _)
  · intro a ha hb
    rcases List.mem_map.mp ha with ⟨t, ht, rfl⟩
    have h5 := (List.mem_filter.mp ht).2
    simp only [decide_eq_true_eq] at h5
    exact h5 (by simpa [tagKeys] using hb)

/-- Every key of the merge comes from one of the two inputs. -/
theorem mergedTags_keys_subset (T1 T2 : List Tag) (ex : Option (List String)) :
    ∀ a ∈ tagKeys (mergedTags T1 T2 ex), a ∈ tagKeys T1 ++ tagKeys T2 := by
  intro a ha
  rw [mergedTags_eq] at ha
  simp only [tagKeys, List.map_append, List.mem_append] at ha ⊢
  rcases ha with ha | ha
  · left
    rcases List.mem_map.mp ha with ⟨t, ht, rfl⟩
    have ht1 : t ∈ T1 :=
      (filterExcluded_sublist T1 ex).subset ((List.filter_sublist _).subset ht)
    exact List.mem_map.mpr ⟨t, ht1, rfl⟩
  · right
    exact ha

/-- C4: `exists_in_s3` returns `False` iff the store's head lookup
reported a 404 `ClientError`; any other client error propagates
unchanged, and on success the (truthy) head metadata is returned. -/
theorem spec_C4_exists_iff_404 (r : HeadResult) :
    ((exists_in_s3 r = .ok none) ↔ (∃ m, r = .err "404" m)) ∧
    (∀ c m, c ≠ "404" → exists_in_s3 (.err c m) = .error (.clientError m)) ∧
    (∀ meta, exists_in_s3 (.ok meta) = .ok (some meta)) := by
  refine ⟨?_, ?_, fun _ => rfl⟩
  · cases r with
    | ok meta => simp [exists_in_s3]
    | err c m =>
      by_cases hc : c = "404"
      · subst hc; simp [exists_in_s3]
      · simp [exists_in_s3, hc]
  · intro c m hc
    simp [exists_in_s3, hc]

/-- Witness for `spec_C4_exists_iff_404` at concrete head responses. -/
theorem spec_C4_witness :
    exists_in_s3 (.err "404" "gone") = .ok none ∧
    exists_in_s3 (.err "403" "denied") = .error (.clientError "denied") ∧
    exists_in_s3 (.ok "meta") = .ok (some "meta") :=
  ⟨(spec_C4_exists_iff_404 (.err "404" "gone")).1.mpr ⟨"gone", rfl⟩,
   (spec_C4_exists_iff_404 (.err "403" "denied")).2.1 "403" "denied" (by decide),
   (spec_C4_exists_iff_404 (.ok "meta")).2.2 "meta"⟩

/-- C5: when the existence check reports not-found (a 404 from
`head_object`), `download` raises `FileNotFoundError` and never issues
the get-object transfer; when the key exists, the local path returned is
the destination directory joined with the last path segment of the key
(`filenameOfKey`). -/
theorem spec_C5_download_not_found (key dir msg : String)
    (transfer : Except String Unit) :
    ((download (.err "404" msg) key dir transfer).getObjectCalls = 0 ∧
      (download (.err "404" msg) key dir transfer).result =
        .error (.fileNotFoundError
          ("S3 object with key " ++ key ++ " not found in bucket"))) ∧
    (∀ meta, download (.ok meta) key dir (.ok ()) =
      { getObjectCalls := 1, telemetryReports := [],
        result := .ok (osPathJoin dir (filenameOfKey key)) }) := by
  constructor
  · constructor <;> simp [download, exists_in_s3]
  · intro meta; rfl

/-- C3 counterexample: a store error during `delete_object` (and
`get_tags`) is not reported to the telemetry collaborator (the
`capture_exception` trace stays empty) and is re-raised as the very same
`ClientError`, not wrapped into a distinct storage-failure exception. -/
theorem spec_C3_counterexample :
    (delete_object (.error "connection reset")).1.telemetryReports = [] ∧
    (delete_object (.error "connection reset")).2 =
      .error (.clientError "connection reset") ∧
    (get_tags (.error "connection reset")).1.telemetryReports = [] ∧
    (get_tags (.error "connection reset")).2 =
      .error (.clientError "connection reset") :=
  ⟨rfl, rfl, rfl, rfl⟩

/-- C3 (amended): a store error in `delete_object` or `get_tags` is
logged via the logger collaborator, not telemetry-reported, and then
re-raised unchanged as the original client error after exactly one store
call (no retry); telemetry reporting happens on `download`'s
transfer-failure path, which also re-raises the original error. -/
theorem spec_C3_log_and_reraise (m : String) :
    delete_object (.error m) =
      ({ storeCalls := 1, logErrorCount := 1, telemetryReports := [] },
        .error (.clientError m)) ∧
    get_tags (.error m) =
      ({ storeCalls := 1, logErrorCount := 1, telemetryReports := [] },
        .error (.clientError m)) ∧
    (download (.ok "meta") "k" "/tmp" (.error m)).telemetryReports = [m] ∧
    (download (.ok "meta") "k" "/tmp" (.error m)).result =
      .error (.clientError m) :=
  ⟨rfl, rfl, rfl, rfl⟩

/-- C6: `create_collection` issues exactly one marker write, at key
`{orgid}/{lowercased collection}/.collection_info`, and returns the
prefix `{orgid}/{lowercased collection}`; in particular for
`("org1", "Foo")` the marker key is `org1/foo/.collection_info` and the
returned handle is `org1/foo`. -/
theorem spec_C6_create_collection :
    (∀ orgid collection ts putResp,
      (create_collection orgid collection ts putResp).puts.map Prod.fst =
        [orgid ++ "/" ++ pyLower collection ++ "/.collection_info"]) ∧
    (∀ orgid collection ts,
      (create_collection orgid collection ts (.ok ())).result =
        .ok (orgid ++ "/" ++ pyLower collection)) ∧
    ((create_collection "org1" "Foo" "t0" (.ok ())).puts.map Prod.fst =
        ["org1/foo/.collection_info"] ∧
      (create_collection "org1" "Foo" "t0" (.ok ())).result = .ok "org1/foo") := by
  refine ⟨fun orgid collection ts putResp => ?_, fun _ _ _ => rfl, by decide, by decide⟩
  cases putResp <;> rfl

/-- C7 counterexample: a key whose last path segment is
`x.collection_info` ends in `.collection_info` but is NOT excluded from
the listing — the code only skips a filename exactly equal to
`.collection_info`. -/
theorem spec_C7_counterexample :
    (list_objects ["a/x.collection_info"] "").map (·.key) = ["a/x.collection_info"] ∧
    strEndsWith "a/x.collection_info" ".collection_info" = true := by
  constructor
  · rfl
  · decide

/-- C7 (amended): `list_objects(prefix)` returns a summary for a stored
key exactly when the key starts with the prefix and its last
`/`-separated segment is not exactly `.collection_info`. -/
theorem spec_C7_list_objects_marker_filter (storeKeys : List String) (pfx k : String) :
    (k ∈ (list_objects storeKeys pfx).map (·.key)) ↔
      (k ∈ storeKeys ∧ strStartsWith k pfx = true ∧
        filenameOfKey k ≠ ".collection_info") := by
  constructor
  · intro hk
    rcases List.mem_map.mp hk with ⟨s, hs, hsk⟩
    rcases List.mem_filterMap.mp hs with ⟨k', hk', hf⟩
    rcases List.mem_filter.mp hk' with ⟨hmem, hpfx⟩
    by_cases hm : filenameOfKey k' = ".collection_info"
    · rw [if_pos hm] at hf
      cases hf
    · rw [if_neg hm] at hf
      have hs' : ({ key := k', filename := filenameOfKey k' } : ObjectSummary) = s :=
        Option.some.inj hf
      subst hs'
      subst hsk
      exact ⟨hmem, hpfx, hm⟩
  · rintro ⟨hmem, hpfx, hm⟩
    refine List.mem_map.mpr
      ⟨{ key := k, filename := filenameOfKey k }, ?_, rfl⟩
    refine List.mem_filterMap.mpr ⟨k, List.mem_filter.mpr ⟨hmem, hpfx⟩, ?_⟩
    simp [hm]

/-- C8: `delete_collection(prefix)` targets every stored key under the
prefix (marker included, no filtering) in a single bulk-delete call and
returns the store-reported deleted keys with their count; with zero
matching objects it issues no bulk delete and returns the empty summary
rather than an error. -/
theorem spec_C8_delete_collection (storeKeys : List String) (pfx : String)
    (deletedResp : List String) :
    (storeKeys.filter (fun k => strStartsWith k pfx) ≠ [] →
      (delete_collection storeKeys pfx deletedResp).bulkDeleteCalls =
        [storeKeys.filter (fun k => strStartsWith k pfx)] ∧
      (delete_collection storeKeys pfx deletedResp).result =
        { pfx := pfx, deleted_objects := deletedResp,
          total_deleted := deletedResp.length }) ∧
    (storeKeys.filter (fun k => strStartsWith k pfx) = [] →
      (delete_collection storeKeys pfx deletedResp).bulkDeleteCalls = [] ∧
      (delete_collection storeKeys pfx deletedResp).result =
        { pfx := pfx, deleted_objects := [], total_deleted := 0 }) := by
  constructor
  · intro h
    have hne : (storeKeys.filter (fun k => strStartsWith k pfx)).isEmpty = false := by
      simpa [List.isEmpty_iff] using h
    constructor <;> simp [delete_collection, hne]
  · intro h
    have hne : (storeKeys.filter (fun k => strStartsWith k pfx)).isEmpty = true := by
      simpa [List.isEmpty_iff] using h
    constructor <;> simp [delete_collection, hne]

/-- Witness for `spec_C8_delete_collection` at concrete stores. -/
theorem spec_C8_witness :
    ((delete_collection ["p/.collection_info", "p/a.txt"] "p" ["p/a.txt"]).bulkDeleteCalls =
        [["p/.collection_info", "p/a.txt"]] ∧
      (delete_collection ["p/.collection_info", "p/a.txt"] "p" ["p/a.txt"]).result =
        { pfx := "p", deleted_objects := ["p/a.txt"], total_deleted := 1 }) ∧
    ((delete_collection ["q/b"] "p" []).bulkDeleteCalls = [] ∧
      (delete_collection ["q/b"] "p" []).result =
        { pfx := "p", deleted_objects := [], total_deleted := 0 }) :=
  ⟨(spec_C8_delete_collection ["p/.collection_info", "p/a.txt"] "p" ["p/a.txt"]).1
      (by decide),
   (spec_C8_delete_collection ["q/b"] "p" []).2 (by decide)⟩

/-- C10: `delete_collection` matches its prefix as a raw string — every
stored key of which the argument is a string prefix is targeted by the
single bulk delete — and `create_collection` returns the handle
`{orgid}/{lowercased name}` without a trailing slash, so deleting the
handle `org/foo` also targets objects under `org/foobar/`. -/
theorem spec_C10_raw_string_pfx (storeKeys : List String) (p : String)
    (deletedResp : List String) (k : String)
    (hk : k ∈ storeKeys) (hp : strStartsWith k p = true) :
    k ∈ (delete_collection storeKeys p deletedResp).bulkDeleteCalls.flatten ∧
    (∀ orgid c ts, (create_collection orgid c ts (.ok ())).result =
      .ok (orgid ++ "/" ++ pyLower c)) := by
  refine ⟨?_, fun _ _ _ => rfl⟩
  have hmem : k ∈ storeKeys.filter (fun k => strStartsWith k p) :=
    List.mem_filter.mpr ⟨hk, hp⟩
  have hne : (storeKeys.filter (fun k => strStartsWith k p)).isEmpty = false := by
    rw [Bool.eq_false_iff]
    intro htrue
    rw [List.isEmpty_iff] at htrue
    rw [htrue] at hmem
    cases hmem
  simp only [delete_collection, hne, Bool.false_eq_true, if_false, List.flatten]
  simpa using hmem

/-- Witness for `spec_C10_raw_string_pfx`: deleting the handle returned
by `create_collection("org", "Foo")` targets an object of the distinct
collection `org/foobar`. -/
theorem spec_C10_witness :
    "org/foobar/a.txt" ∈
      (delete_collection ["org/foobar/a.txt"] "org/foo" []).bulkDeleteCalls.flatten ∧
    (create_collection "org" "Foo" "t0" (.ok ())).result = .ok "org/foo" :=
  ⟨(spec_C10_raw_string_pfx ["org/foobar/a.txt"] "org/foo" [] "org/foobar/a.txt"
      (by decide) (by decide)).1,
   (spec_C10_raw_string_pfx ["org/foobar/a.txt"] "org/foo" [] "org/foobar/a.txt"
      (by decide) (by decide)).2 "org" "Foo" "t0"⟩

/-- C1: with unique-keyed existing tags `T1` and new tags `T2` whose key
union has at most 10 keys, `append_tags` issues exactly one tag write;
its tag set has no duplicate keys, contains the key of every
non-excluded existing tag and every new tag (as a whole pair, so keys in
both carry the value from `T2`). -/
theorem spec_C1_append_tags_merge (key : String) (T1 T2 : List Tag)
    (ex : Option (List String)) (putResp : Except String Unit)
    (h1 : (tagKeys T1).Nodup) (h2 : (tagKeys T2).Nodup)
    (hle : (tagKeys T1 ++ tagKeys T2).dedup.length ≤ 10) :
    ∃ w, (append_tags key (.ok T1) T2 ex putResp).writes = [w] ∧
      (tagKeys w).Nodup ∧
      (∀ t ∈ filterExcluded T1 ex, t.Key ∈ tagKeys w) ∧
      (∀ t ∈ T2, t ∈ w) ∧
      (∀ t1 ∈ T1, ∀ t2 ∈ T2, t1.Key = t2.Key →
        ∀ t ∈ w, t.Key = t1.Key → t.Value = t2.Value) := by
  have hnd := mergedTags_keys_nodup T1 T2 ex h1 h2
  have hlen : (mergedTags T1 T2 ex).length ≤ 10 := by
    have hkl : (tagKeys (mergedTags T1 T2 ex)).length ≤ 10 :=
      le_trans
        (length_le_dedup_length_of_nodup hnd (mergedTags_keys_subset T1 T2 ex)) hle
    simpa [tagKeys] using hkl
  refine ⟨mergedTags T1 T2 ex, ?_, hnd, ?_, ?_, ?_⟩
  · have hif : ¬ ((mergedTags T1 T2 ex).length > 10) := by omega
    cases putResp with
    | ok u => cases u; simp [append_tags, hif]
    | error m => simp [append_tags, hif]
  · intro t ht
    rw [mergedTags_eq]
    simp only [tagKeys, List.map_append, List.mem_append]
    by_cases hc : (tagKeys T2).contains t.Key = true
    · right
      simpa [tagKeys] using hc
    · left
      refine List.mem_map.mpr ⟨t, ?_, rfl⟩
      exact List.mem_filter.mpr ⟨ht, by simp only [decide_eq_true_eq]; exact hc⟩
  · intro t ht
    rw [mergedTags_eq]
    exact List.mem_append_right _ ht
  · intro t1 ht1 t2 ht2 hk t ht htk
    rw [mergedTags_eq] at ht
    rcases List.mem_append.mp ht with h | h
    · exfalso
      have h5 := (List.mem_filter.mp h).2
      simp only [decide_eq_true_eq] at h5
      apply h5
      have hm2 : t2.Key ∈ tagKeys T2 := List.mem_map.mpr ⟨t2, ht2, rfl⟩
      rw [htk, hk]
      simpa using hm2
    · have hEq : t = t2 := List.inj_on_of_nodup_map h2 h ht2 (htk.trans hk)
      rw [hEq]

/-- Witness for `spec_C1_append_tags_merge` with `T1 = [a↦1, b↦2]`,
`T2 = [b↦9, c↦3]`. -/
theorem spec_C1_witness :
    ((tagKeys [⟨"a", "1"⟩, ⟨"b", "2"⟩]).Nodup ∧
      (tagKeys [⟨"b", "9"⟩, ⟨"c", "3"⟩]).Nodup ∧
      (tagKeys [⟨"a", "1"⟩, ⟨"b", "2"⟩] ++
        tagKeys [⟨"b", "9"⟩, ⟨"c", "3"⟩]).dedup.length ≤ 10) ∧
    (∃ w, (append_tags "k" (.ok [⟨"a", "1"⟩, ⟨"b", "2"⟩])
        [⟨"b", "9"⟩, ⟨"c", "3"⟩] none (.ok ())).writes = [w] ∧
      (tagKeys w).Nodup ∧
      (∀ t ∈ filterExcluded [⟨"a", "1"⟩, ⟨"b", "2"⟩] none, t.Key ∈ tagKeys w) ∧
      (∀ t ∈ ([⟨"b", "9"⟩, ⟨"c", "3"⟩] : List Tag), t ∈ w) ∧
      (∀ t1 ∈ ([⟨"a", "1"⟩, ⟨"b", "2"⟩] : List Tag),
        ∀ t2 ∈ ([⟨"b", "9"⟩, ⟨"c", "3"⟩] : List Tag), t1.Key = t2.Key →
        ∀ t ∈ w, t.Key = t1.Key → t.Value = t2.Value)) :=
  ⟨⟨by decide, by decide, by decide⟩,
    spec_C1_append_tags_merge "k" [⟨"a", "1"⟩, ⟨"b", "2"⟩] [⟨"b", "9"⟩, ⟨"c", "3"⟩]
      none (.ok ()) (by decide) (by decide) (by decide)⟩

/-- C2: whenever the unique-key count of the merged tag set exceeds 10,
`append_tags` raises `ValueError` and issues no tag write; the same
check fires on the fallback path (existing-tag fetch failed, only the
new tags counted). -/
theorem spec_C2_append_tags_limit (key : String) (T1 T2 : List Tag)
    (ex : Option (List String)) (putResp : Except String Unit) (e : String) :
    ((tagKeys (mergedTags T1 T2 ex)).dedup.length > 10 →
      (append_tags key (.ok T1) T2 ex putResp).writes = [] ∧
      (append_tags key (.ok T1) T2 ex putResp).result =
        .error (.valueError (tagLimitMsg (mergedTags T1 T2 ex).length key))) ∧
    ((tagKeys T2).dedup.length > 10 →
      (append_tags key (.error e) T2 ex putResp).writes = [] ∧
      (append_tags key (.error e) T2 ex putResp).result =
        .error (.valueError (tagLimitMsg T2.length key))) := by
  constructor
  · intro h
    have hlen : (mergedTags T1 T2 ex).length > 10 := by
      have hd := (List.dedup_sublist (tagKeys (mergedTags T1 T2 ex))).length_le
      have hm : (tagKeys (mergedTags T1 T2 ex)).length = (mergedTags T1 T2 ex).length := by
        simp [tagKeys]
      omega
    constructor <;> simp [append_tags, hlen]
  · intro h
    have hlen : T2.length > 10 := by
      have hd := (List.dedup_sublist (tagKeys T2)).length_le
      have hm : (tagKeys T2).length = T2.length := by simp [tagKeys]
      omega
    constructor <;> simp [append_tags, hlen]

/-- Witness for `spec_C2_append_tags_limit` with eleven distinct keys. -/
theorem spec_C2_witness :
    ((tagKeys (mergedTags [] elevenTags none)).dedup.length > 10 ∧
      (append_tags "k" (.ok []) elevenTags none (.ok ())).writes = [] ∧
      (append_tags "k" (.ok []) elevenTags none (.ok ())).result =
        .error (.valueError (tagLimitMsg (mergedTags [] elevenTags none).length "k"))) ∧
    ((tagKeys elevenTags).dedup.length > 10 ∧
      (append_tags "k" (.error "boom") elevenTags none (.ok ())).writes = [] ∧
      (append_tags "k" (.error "boom") elevenTags none (.ok ())).result =
        .error (.valueError (tagLimitMsg elevenTags.length "k"))) :=
  ⟨⟨by decide,
    ((spec_C2_append_tags_limit "k" [] elevenTags none (.ok ()) "boom").1 (by decide)).1,
    ((spec_C2_append_tags_limit "k" [] elevenTags none (.ok ()) "boom").1 (by decide)).2⟩,
   ⟨by decide,
    ((spec_C2_append_tags_limit "k" [] elevenTags none (.ok ()) "boom").2 (by decide)).1,
    ((spec_C2_append_tags_limit "k" [] elevenTags none (.ok ()) "boom").2 (by decide)).2⟩⟩

/-- Inserting a key not yet present in a Python dict appends the pair. -/
theorem pyDictInsert_of_not_mem (d : List (String × String)) (k v : String)
    (h : ∀ p ∈ d, p.1 ≠ k) : pyDictInsert d k v = d ++ [(k, v)] := by
  have hany : (d.any (fun p => p.1 = k)) = false := by
    rw [List.any_eq_false]
    intro p hp
    simpa using h p hp
  unfold pyDictInsert
  rw [hany]
  simp

/-- Folding dict insertion over a unique-keyed tag list, starting from an
accumulator whose keys are disjoint from the list's keys, appends the
key/value pairs in order. -/
theorem pyDictFold_eq (ts : List Tag) :
    ∀ acc : List (String × String),
      (∀ t ∈ ts, ∀ p ∈ acc, p.1 ≠ t.Key) →
      (tagKeys ts).Nodup →
      ts.foldl (fun d t => pyDictInsert d t.Key t.Value) acc
        = acc ++ ts.map (fun t => (t.Key, t.Value)) := by
  induction ts with
  | nil =>
    intro acc _ _
    simp
  | cons t ts ih =>
    intro acc hd hn
    have hcons : (∀ x ∈ ts, ¬ x.Key = t.Key) ∧
        (List.map (fun x => x.Key) ts).Nodup := by
      simpa [tagKeys] using hn
    rw [List.foldl_cons,
      pyDictInsert_of_not_mem acc t.Key t.Value
        (fun p hp => hd t (List.mem_cons_self t ts) p hp),
      ih (acc ++ [(t.Key, t.Value)]) ?_ ?_]
    · simp
    · intro t' ht' p hp
      rcases List.mem_append.mp hp with hp | hp
      · exact hd t' (List.mem_cons_of_mem t ht') p hp
      · have hp' : p = (t.Key, t.Value) := by simpa using hp
        subst hp'
        exact fun hEq => hcons.1 t' ht' hEq.symm
    · exact hcons.2

/-- On a unique-keyed tag set the dict comprehension of `get_tags` keeps
exactly the pairs, in order. -/
theorem pyDictOfTagSet_eq_map (ts : List Tag) (hn : (tagKeys ts).Nodup) :
    pyDictOfTagSet ts = ts.map (fun t => (t.Key, t.Value)) := by
  simpa [pyDictOfTagSet] using pyDictFold_eq ts [] (by simp) hn

/-- C9: `put_tags(key, T)` followed by `get_tags(key)` on the unchanged
store returns a mapping whose key/value pairs are exactly those of `T`,
independent of order, for any unique-keyed `T` of at most 10 entries. -/
theorem spec_C9_put_get_roundtrip (st : TagStore) (key : String) (T : List Tag)
    (h1 : (tagKeys T).Nodup) (_h2 : T.length ≤ 10) :
    ∃ d, (get_tags (.ok ((put_tags st key T).1.tags key))).2 = .ok d ∧
      ∀ k v, (k, v) ∈ d ↔ (⟨k, v⟩ : Tag) ∈ T := by
  have hkey : (put_tags st key T).1.tags key = T := by
    simp [put_tags, put_object_tagging]
  refine ⟨pyDictOfTagSet T, by rw [hkey]; rfl, ?_⟩
  intro k v
  rw [pyDictOfTagSet_eq_map T h1]
  constructor
  · intro h
    rcases List.mem_map.mp h with ⟨t, ht, hEq⟩
    obtain ⟨a, b⟩ := t
    have ha : a = k := congrArg Prod.fst hEq
    have hb : b = v := congrArg Prod.snd hEq
    subst ha
    subst hb
    exact ht
  · intro h
    exact List.mem_map.mpr ⟨⟨k, v⟩, h, rfl⟩

/-- Witness for `spec_C9_put_get_roundtrip` on a two-tag set. -/
theorem spec_C9_witness :
    ((tagKeys [⟨"p", "1"⟩, ⟨"q", "2"⟩]).Nodup ∧
      ([⟨"p", "1"⟩, ⟨"q", "2"⟩] : List Tag).length ≤ 10) ∧
    (∃ d, (get_tags (.ok ((put_tags ⟨fun _ => []⟩ "obj"
        [⟨"p", "1"⟩, ⟨"q", "2"⟩]).1.tags "obj"))).2 = .ok d ∧
      ∀ k v, (k, v) ∈ d ↔ (⟨k, v⟩ : Tag) ∈ ([⟨"p", "1"⟩, ⟨"q", "2"⟩] : List Tag)) :=
  ⟨⟨by decide, by decide⟩,
    spec_C9_put_get_roundtrip ⟨fun _ => []⟩ "obj" [⟨"p", "1"⟩, ⟨"q", "2"⟩]
      (by decide) (by decide)⟩

end S3Utils
